import Mathlib

/-!
Verification development for the AI Content Studio repository.

The development shallowly embeds the content-creation pipeline:
the Research agent (`research_topic`, `parse_research_result`, the
keyword-based extractors), the Writer agent (`create_content_draft`),
the Task Orchestrator (`create_content`, `create_draft`,
`prepare_research_requirements` from `app/tasks/content_creation_task.py`)
and the transport endpoint (`get_api_key`, `create_content_endpoint`
from `app/api/content.py`).

Python strings are modelled as Lean `String`s; the primitive string
operations used by the code (`str.split`, `str.strip`, `str.lower`,
substring membership `in`) are embedded as executable functions on
character lists below. Python dicts holding research results are
modelled as association lists from `String` to a value type `RValue`,
preserving key order. Exceptions are modelled with `Except`: the
`ValueError("Topic cannot be empty")` raised by agent input validation
is `Err.invalidInput`, and a failure of the external completion client
is `Err.upstream`. The two external completion collaborators are passed
in as stub functions `String → Except Err String` (prompt to raw text),
and every completion invocation is recorded in a `CallEvent` trace so
that ordering and never-invoked properties can be stated.
-/

/-- Python whitespace test used by `str.strip` and `str.split()` (ASCII model). -/
def isPyWS (c : Char) : Bool :=
  c == ' ' || c == '\t' || c == '\n' || c == '\r' || c == '\x0b' || c == '\x0c'

/-- Whether the first list is an initial segment of the second. -/
def isPre : List Char → List Char → Bool
  | [], _ => true
  | _ :: _, [] => false
  | c :: cs, d :: ds => c == d && isPre cs ds

/-- Whether `needle` occurs contiguously inside `hay`. -/
def hasSub (needle : List Char) : List Char → Bool
  | [] => isPre needle []
  | c :: rest => isPre needle (c :: rest) || hasSub needle rest

/-- Python `needle in hay` on strings: contiguous substring membership. -/
def pyIn (needle hay : String) : Bool :=
  hasSub needle.toList hay.toList

/-- Python `s.lower()` (ASCII model, per-character lowering). -/
def strLower (s : String) : String :=
  String.mk (s.toList.map Char.toLower)

/-- Python `s.strip()`: drop leading and trailing whitespace. -/
def pyStrip (s : String) : String :=
  String.mk (((s.toList.dropWhile isPyWS).reverse.dropWhile isPyWS).reverse)

/-- Split a character list at every occurrence of the separator, keeping empty groups. -/
def splitChar (sep : Char) : List Char → List (List Char)
  | [] => [[]]
  | c :: rest =>
    if c == sep then [] :: splitChar sep rest
    else
      match splitChar sep rest with
      | [] => [[c]]
      | g :: gs => (c :: g) :: gs

/-- Python `text.split(sep)` for a single-character separator. -/
def pySplitOn (sep : Char) (s : String) : List String :=
  (splitChar sep s.toList).map (fun g => String.mk g)

/-- The line decomposition `text.split('\n')` used by every extractor. -/
def pylines (s : String) : List String :=
  pySplitOn '\n' s

/-- Group a character list into maximal runs separated by whitespace (empties kept). -/
def wsGroups : List Char → List (List Char)
  | [] => [[]]
  | c :: rest =>
    if isPyWS c then [] :: wsGroups rest
    else
      match wsGroups rest with
      | [] => [[c]]
      | g :: gs => (c :: g) :: gs

/-- Python `s.split()` with no argument: split on whitespace runs, dropping empties. -/
def pySplitWS (s : String) : List String :=
  ((wsGroups s.toList).filter (fun g => !g.isEmpty)).map (fun g => String.mk g)

/-- Python `', '.join(xs)`. -/
def pyJoin (sep : String) (xs : List String) : String :=
  String.intercalate sep xs

/-- Keyword set of `ResearchAgent._extract_key_facts`. -/
def key_fact_keywords : List String := ["fact", "statistic", "data", "figure"]

/-- Keyword set of `ResearchAgent._extract_sources`. -/
def source_keywords : List String := ["source", "reference", "study", "report"]

/-- Keyword set of `ResearchAgent._extract_insights`. -/
def insight_keywords : List String := ["insight", "finding", "discovery", "observation"]

/-- Keyword set of `ResearchAgent._extract_recommendations`. -/
def recommendation_keywords : List String := ["recommend", "suggest", "advise", "propose"]

/-- `any(keyword in line.lower() for keyword in kws)`. -/
def lineMatches (kws : List String) (line : String) : Bool :=
  kws.any (fun kw => pyIn kw (strLower line))

/-- The common loop shape of the `_extract_*` helpers: scan the lines of
`text` in order and append `line.strip()` for every line matching the
keyword set. -/
def extractLines (kws : List String) (text : String) : List String :=
  (pylines text).foldl
    (fun acc line => if lineMatches kws line then acc ++ [pyStrip line] else acc) []

/-- `ResearchAgent._extract_key_facts`. -/
def extract_key_facts (text : String) : List String :=
  extractLines key_fact_keywords text

/-- `ResearchAgent._extract_sources`. -/
def extract_sources (text : String) : List String :=
  extractLines source_keywords text

/-- `ResearchAgent._extract_insights`. -/
def extract_insights (text : String) : List String :=
  extractLines insight_keywords text

/-- `ResearchAgent._extract_recommendations`. -/
def extract_recommendations (text : String) : List String :=
  extractLines recommendation_keywords text

/-- Values stored in the research-result dict: either a raw string or a
list of extracted lines. -/
inductive RValue where
  | str (s : String)
  | strList (l : List String)
deriving DecidableEq

/-- Python dict keyed by strings, preserving insertion order. -/
abbrev PyDict := List (String × RValue)

/-- Python `key in d` / `d[key]` lookup on the ordered dict model. -/
def dictLookup : PyDict → String → Option RValue
  | [], _ => none
  | (k, v) :: rest, key => if key = k then some v else dictLookup rest key

/-- A research-result dict with the six keys of
`ResearchAgent._parse_research_result`, in their literal order. -/
def mkResearchDict (topic research_findings : String)
    (key_facts sources insights recommendations : List String) : PyDict :=
  [("topic", RValue.str topic),
   ("research_findings", RValue.str research_findings),
   ("key_facts", RValue.strList key_facts),
   ("sources", RValue.strList sources),
   ("insights", RValue.strList insights),
   ("recommendations", RValue.strList recommendations)]

/-- `ResearchAgent._parse_research_result`: structure the raw completion
text into the six-key dict. -/
def parse_research_result (research_text topic : String) : PyDict :=
  mkResearchDict topic research_text
    (extract_key_facts research_text)
    (extract_sources research_text)
    (extract_insights research_text)
    (extract_recommendations research_text)

/-- Failures propagating through the pipeline. `invalidInput` models the
`ValueError` raised by agent input validation (the spec taxonomy name is
`InvalidInput`); `upstream` models a failure of the external completion
client (`UpstreamFailure`), which the core never catches. -/
inductive Err where
  | invalidInput (msg : String)
  | upstream (msg : String)
deriving DecidableEq

/-- One external completion-client invocation, with the prompt it was
given. The pipeline makes at most one research call and one draft call. -/
inductive CallEvent where
  | researchCall (prompt : String)
  | draftCall (prompt : String)
deriving DecidableEq

/-- A completion stub: prompt text in, raw completion text out (or a
collaborator failure). -/
abbrev CompletionStub := String → Except Err String

/-- Python truthiness of `Optional[List[str]]` (`if keywords:`). -/
def pyTruthyList : Option (List String) → Bool
  | none => false
  | some l => !l.isEmpty

/-- Python truthiness of `Optional[str]` (`if additional_requirements:`). -/
def pyTruthyStr : Option String → Bool
  | none => false
  | some s => !s.isEmpty

/-- Python `keywords or []`. -/
def pyOrEmpty : Option (List String) → List String
  | none => []
  | some ks => if ks.isEmpty then [] else ks

/-- The task description f-string built by `ResearchAgent.research_topic`. -/
def research_task_description (topic research_depth content_type target_audience : String) :
    String :=
  "\n        Conduct " ++ research_depth ++ " research on the topic: \"" ++ topic ++
  "\"\n        \n        Content Type: " ++ content_type ++
  "\n        Target Audience: " ++ target_audience ++
  "\n        \n        Please provide:" ++
  "\n        1. Key facts and statistics" ++
  "\n        2. Current trends and developments" ++
  "\n        3. Expert opinions and quotes" ++
  "\n        4. Relevant case studies or examples" ++
  "\n        5. Historical context (if applicable)" ++
  "\n        6. Controversial aspects or debates" ++
  "\n        7. Future implications or predictions" ++
  "\n        8. Credible sources and references" ++
  "\n        9. Data visualization suggestions" ++
  "\n        10. Research gaps or areas for further study" ++
  "\n        "

/-- The task description built by `WriterAgent.create_content_draft`,
including the two conditionally appended lines. -/
def writer_task_description (topic content_type target_audience : String)
    (word_count : Nat) (tone : String) (keywords : Option (List String))
    (additional_requirements : Option String) : String :=
  let base :=
    "\n        Create a " ++ content_type ++ " about \"" ++ topic ++
    "\" with the following specifications:" ++
    "\n        \n        - Target Audience: " ++ target_audience ++
    "\n        - Word Count: Approximately " ++ toString word_count ++ " words" ++
    "\n        - Tone: " ++ tone ++
    "\n        - Content Type: " ++ content_type ++
    "\n        "
  let withKw :=
    if pyTruthyList keywords then
      base ++ "\n- Keywords to include naturally: " ++ pyJoin ", " (pyOrEmpty keywords)
    else base
  let withReq :=
    if pyTruthyStr additional_requirements then
      withKw ++ "\n- Additional Requirements: " ++ additional_requirements.getD ""
    else withKw
  withReq ++
  "\n        \n        Please ensure the content is:" ++
  "\n        1. Well-structured with clear headings and subheadings" ++
  "\n        2. Engaging and informative" ++
  "\n        3. Optimized for the target audience" ++
  "\n        4. Free of grammatical errors" ++
  "\n        5. Original and plagiarism-free" ++
  "\n        "

/-- `ResearchAgent.validate_input` / `WriterAgent.validate_input`:
a string is valid when it is non-empty after stripping. -/
def agent_validate_input (s : String) : Bool :=
  (pyStrip s).length > 0

/-- `ResearchAgent.research_topic`: validate the topic, issue one
completion call (recorded in the trace), and parse the raw text.
A collaborator failure propagates unmodified. -/
def research_topic (researchExec : CompletionStub)
    (topic research_depth content_type target_audience : String) :
    List CallEvent × Except Err PyDict :=
  if agent_validate_input topic then
    let td := research_task_description topic research_depth content_type target_audience
    match researchExec td with
    | Except.ok text => ([CallEvent.researchCall td], Except.ok (parse_research_result text topic))
    | Except.error e => ([CallEvent.researchCall td], Except.error e)
  else ([], Except.error (Err.invalidInput "Topic cannot be empty"))

/-- `WriterAgent.create_content_draft`: validate the topic, issue one
completion call, and return the stripped completion text
(`postprocess_output`). -/
def create_content_draft (writerExec : CompletionStub)
    (topic content_type target_audience : String) (word_count : Nat) (tone : String)
    (keywords : Option (List String)) (additional_requirements : Option String) :
    List CallEvent × Except Err String :=
  if agent_validate_input topic then
    let td := writer_task_description topic content_type target_audience word_count tone
      keywords additional_requirements
    match writerExec td with
    | Except.ok text => ([CallEvent.draftCall td], Except.ok (pyStrip text))
    | Except.error e => ([CallEvent.draftCall td], Except.error e)
  else ([], Except.error (Err.invalidInput "Topic cannot be empty"))

/-- Python `', '.join(v[:n])` for a dict value: on a list value it joins
the first `n` entries; on a raw string value (never produced by the
pipeline, but expressible in a Python dict) slicing yields the first `n`
characters, which join joins. -/
def rvalueTakeJoin (v : RValue) (n : Nat) : String :=
  match v with
  | RValue.strList l => pyJoin ", " (l.take n)
  | RValue.str s => pyJoin ", " ((s.toList.take n).map (fun c => String.mk [c]))

/-- `ContentCreationTask._prepare_research_requirements`: one labeled
line per key present in the dict (first 5 key facts, first 3 sources,
first 3 insights), joined by newlines; the empty string when no key is
present. -/
def prepare_research_requirements (research_data : PyDict) : String :=
  let requirements : List String :=
    (match dictLookup research_data "key_facts" with
     | some v => ["Key Facts: " ++ rvalueTakeJoin v 5]
     | none => []) ++
    (match dictLookup research_data "sources" with
     | some v => ["Credible Sources: " ++ rvalueTakeJoin v 3]
     | none => []) ++
    (match dictLookup research_data "insights" with
     | some v => ["Key Insights: " ++ rvalueTakeJoin v 3]
     | none => [])
  if !requirements.isEmpty then pyJoin "\n" requirements else ""

/-- The dict returned by `ContentCreationTask._create_draft`. -/
structure DraftResult where
  draft_content : String
  research_incorporated : Bool
  word_count_actual : Nat
  keywords_used : List String
deriving DecidableEq

/-- The final dict assembled by `ContentCreationTask.create_content`
(`status = "completed"`, timestamp from the clock parameter). -/
structure ContentRecord where
  topic : String
  content_type : String
  target_audience : String
  word_count : Nat
  tone : String
  keywords : Option (List String)
  research_data : PyDict
  content : DraftResult
  creation_timestamp : String
  status : String
deriving DecidableEq

/-- `ContentCreationTask._conduct_research`: delegate to the research
agent with the parameters reordered. -/
def conduct_research (researchExec : CompletionStub)
    (topic content_type target_audience research_depth : String) :
    List CallEvent × Except Err PyDict :=
  research_topic researchExec topic research_depth content_type target_audience

/-- `ContentCreationTask._create_draft`: build the requirements block
from the research data, call the writer agent with it, and wrap the
draft text with its metadata. -/
def create_draft (writerExec : CompletionStub)
    (topic content_type target_audience : String) (word_count : Nat) (tone : String)
    (keywords : Option (List String)) (research_data : PyDict) :
    List CallEvent × Except Err DraftResult :=
  let additional_requirements := prepare_research_requirements research_data
  match create_content_draft writerExec topic content_type target_audience word_count tone
      keywords (some additional_requirements) with
  | (tr, Except.ok content_draft) =>
      (tr, Except.ok
        { draft_content := content_draft
          research_incorporated := true
          word_count_actual := (pySplitWS content_draft).length
          keywords_used := pyOrEmpty keywords })
  | (tr, Except.error e) => (tr, Except.error e)

/-- `ContentCreationTask.create_content`: research, then draft, then
assemble the final record; any step failure propagates unmodified
(the surrounding `try` re-raises). `now` stands for the wall clock read
by `_get_timestamp`. -/
def create_content (researchExec writerExec : CompletionStub)
    (topic content_type target_audience : String) (word_count : Nat) (tone : String)
    (keywords : Option (List String)) (research_depth now : String) :
    List CallEvent × Except Err ContentRecord :=
  match conduct_research researchExec topic content_type target_audience research_depth with
  | (tr, Except.error e) => (tr, Except.error e)
  | (tr, Except.ok research_result) =>
    match create_draft writerExec topic content_type target_audience word_count tone
        keywords research_result with
    | (tw, Except.error e) => (tr ++ tw, Except.error e)
    | (tw, Except.ok content_result) =>
      (tr ++ tw, Except.ok
        { topic := topic
          content_type := content_type
          target_audience := target_audience
          word_count := word_count
          tone := tone
          keywords := keywords
          research_data := research_result
          content := content_result
          creation_timestamp := now
          status := "completed" })

/-- Transport-level failures of `app/api/content.py`. -/
inductive HttpFailure where
  | unauthorized (detail : String)
  | badRequest (detail : String)
  | internal (e : Err)
deriving DecidableEq

/-- `get_api_key`: reject unless the `X-API-Key` header equals the
configured secret (a missing header is `none` and never matches). -/
def get_api_key (secret_key : String) (api_key : Option String) :
    Except HttpFailure (Option String) :=
  if api_key ≠ some secret_key then Except.error (HttpFailure.unauthorized "Invalid API Key")
  else Except.ok api_key

/-- `ContentCreationTask.validate_input` on the request dict: the only
required field is `topic`, which must be truthy (non-empty). -/
def task_validate_input (topic : String) : Bool :=
  topic.length > 0

/-- The `POST /content/create` endpoint: the `get_api_key` dependency
runs before the handler body, which validates the request and invokes
the orchestrator; an uncaught pipeline failure surfaces as an internal
error. -/
def create_content_endpoint (researchExec writerExec : CompletionStub)
    (secret_key : String) (api_key : Option String)
    (topic content_type target_audience : String) (word_count : Nat) (tone : String)
    (keywords : Option (List String)) (research_depth now : String) :
    List CallEvent × Except HttpFailure ContentRecord :=
  match get_api_key secret_key api_key with
  | Except.error e => ([], Except.error e)
  | Except.ok _ =>
    if task_validate_input topic then
      match create_content researchExec writerExec topic content_type target_audience
          word_count tone keywords research_depth now with
      | (tr, Except.ok record) => (tr, Except.ok record)
      | (tr, Except.error e) => (tr, Except.error (HttpFailure.internal e))
    else ([], Except.error (HttpFailure.badRequest "Invalid input data"))

/-- A research completion stub used to exercise the pipeline on concrete input. -/
def demoResearchStub : CompletionStub :=
  fun _ => Except.ok "Fact: solar capacity grew\nSource: energy agency review"

/-- A writer completion stub returning a three-token draft. -/
def demoWriterStub : CompletionStub :=
  fun _ => Except.ok "one two three"

/-- A failing research stub modelling an upstream completion failure. -/
def demoFailingStub : CompletionStub :=
  fun _ => Except.error (Err.upstream "rate limit")

/-- One concrete end-to-end run of the pipeline on the demo stubs. -/
def demoRun : List CallEvent × Except Err ContentRecord :=
  create_content demoResearchStub demoWriterStub "electric vehicles" "article" "general"
    500 "professional" (some ["EV", "battery"]) "comprehensive" "2026-10-12T00:00:00"

/-- Placeholder record used only to totalize `demoRecord`. -/
def fallbackRecord : ContentRecord :=
  { topic := "", content_type := "", target_audience := "", word_count := 0, tone := ""
    keywords := none, research_data := []
    content := { draft_content := "", research_incorporated := false,
                 word_count_actual := 0, keywords_used := [] }
    creation_timestamp := "", status := "" }

/-- The record produced by the demo run. -/
def demoRecord : ContentRecord :=
  match demoRun.2 with
  | Except.ok r => r
  | Except.error _ => fallbackRecord

/-- One concrete run of the draft step alone on the demo writer stub. -/
def demoDraftRun : List CallEvent × Except Err DraftResult :=
  create_draft demoWriterStub "electric vehicles" "article" "general" 500 "professional"
    (some ["EV", "battery"]) (parse_research_result "Fact: solar capacity grew" "electric vehicles")

/-- The draft result produced by the demo draft run. -/
def demoDraftResult : DraftResult :=
  match demoDraftRun.2 with
  | Except.ok dr => dr
  | Except.error _ =>
      { draft_content := "", research_incorporated := false,
        word_count_actual := 0, keywords_used := [] }

/-- Accumulator form of the extractor loop: folding append-if-match over
lines extends the accumulator with the stripped matching lines. -/
theorem foldl_append_filter_map {α β : Type} (P : α → Bool) (f : α → β) :
    ∀ (l : List α) (acc : List β),
      l.foldl (fun acc a => if P a then acc ++ [f a] else acc) acc =
        acc ++ (l.filter P).map f := by
  intro l
  induction l with
  | nil => intro acc; simp
  | cons a l ih =>
    intro acc
    by_cases h : P a
    · simp [h, ih, List.filter_cons]
    · simp [h, ih, List.filter_cons]

/-- Every extractor bucket is the stripped image of the matching lines,
in original order. -/
theorem extractLines_eq_filter_map (kws : List String) (text : String) :
    extractLines kws text =
      ((pylines text).filter (fun l => lineMatches kws l)).map pyStrip := by
  unfold extractLines
  rw [foldl_append_filter_map]
  simp

/-- `keywords or []` agrees with `Option.getD []`. -/
theorem pyOrEmpty_eq_getD (kw : Option (List String)) : pyOrEmpty kw = kw.getD [] := by
  cases kw with
  | none => rfl
  | some l => cases l <;> rfl

/-- Inversion for a successful draft step: the metadata fields are
determined by the draft text and the requested keywords. -/
theorem create_draft_ok_shape (wE : CompletionStub) (topic ct ta : String) (wc : Nat)
    (tone : String) (kw : Option (List String)) (research_data : PyDict) (dr : DraftResult)
    (h : (create_draft wE topic ct ta wc tone kw research_data).2 = Except.ok dr) :
    dr.research_incorporated = true ∧
    dr.word_count_actual = (pySplitWS dr.draft_content).length ∧
    dr.keywords_used = pyOrEmpty kw := by
  simp only [create_draft] at h
  cases hcd : create_content_draft wE topic ct ta wc tone kw
      (some (prepare_research_requirements research_data)) with
  | mk tr r =>
    rw [hcd] at h
    cases r with
    | error e => simp at h
    | ok text =>
      simp at h
      subst h
      exact ⟨rfl, rfl, rfl⟩

/-- Inversion for a successful pipeline run: the draft step succeeded on
the stored research data and produced the stored content, and the
request parameters are echoed. -/
theorem create_content_ok_inv (rE wE : CompletionStub) (topic ct ta : String) (wc : Nat)
    (tone : String) (kw : Option (List String)) (rd now : String) (record : ContentRecord)
    (h : (create_content rE wE topic ct ta wc tone kw rd now).2 = Except.ok record) :
    (create_draft wE topic ct ta wc tone kw record.research_data).2 =
      Except.ok record.content ∧
    record.keywords = kw ∧ record.status = "completed" := by
  unfold create_content at h
  cases hr : conduct_research rE topic ct ta rd with
  | mk tr r =>
    rw [hr] at h
    cases r with
    | error e => simp at h
    | ok research_result =>
      dsimp only at h
      cases hw : create_draft wE topic ct ta wc tone kw research_result with
      | mk tw w =>
        rw [hw] at h
        cases w with
        | error e => simp at h
        | ok content_result =>
          simp at h
          subst h
          exact ⟨congrArg Prod.snd hw, rfl, rfl⟩

/-- Claim C1: for every research result, the research-requirements block
built by the orchestrator and passed to the Draft step is exactly three
labeled lines holding, comma-joined, at most the first 5 entries of
key_facts, the first 3 of sources, and the first 3 of insights; in
particular, with more than 5 key facts exactly the first 5 appear. -/
theorem requirements_block_takes_first_five_three_three
    (t raw : String) (kf ss ins recs : List String) :
    prepare_research_requirements (mkResearchDict t raw kf ss ins recs) =
      ("Key Facts: " ++ pyJoin ", " (kf.take 5)) ++ "\n" ++
      ("Credible Sources: " ++ pyJoin ", " (ss.take 3)) ++ "\n" ++
      ("Key Insights: " ++ pyJoin ", " (ins.take 3)) := by
  rfl

/-- Claim C2: in every record produced by `create_content`, the field
`content.word_count_actual` is the number of whitespace-separated tokens
of `content.draft_content`, independently of the requested word count. -/
theorem word_count_actual_counts_draft_tokens
    (rE wE : CompletionStub) (topic ct ta : String) (wc : Nat) (tone : String)
    (kw : Option (List String)) (rd now : String) (record : ContentRecord)
    (h : (create_content rE wE topic ct ta wc tone kw rd now).2 = Except.ok record) :
    record.content.word_count_actual = (pySplitWS record.content.draft_content).length := by
  obtain ⟨hd, -, -⟩ := create_content_ok_inv rE wE topic ct ta wc tone kw rd now record h
  exact (create_draft_ok_shape wE topic ct ta wc tone kw record.research_data
    record.content hd).2.1

/-- Claim C2 witness: the demo run produces a record whose actual word
count equals the token count of its draft content. -/
theorem word_count_actual_counts_draft_tokens_witness :
    demoRecord.content.word_count_actual =
      (pySplitWS demoRecord.content.draft_content).length :=
  word_count_actual_counts_draft_tokens demoResearchStub demoWriterStub
    "electric vehicles" "article" "general" 500 "professional" (some ["EV", "battery"])
    "comprehensive" "2026-10-12T00:00:00" demoRecord rfl

/-- Claim C3: a topic that is empty after trimming makes `create_content`
fail with the invalid-input error before any completion call: the call
trace is empty, so neither the research nor the writer completion runs. -/
theorem empty_topic_invalid_input_no_calls
    (rE wE : CompletionStub) (topic ct ta : String) (wc : Nat) (tone : String)
    (kw : Option (List String)) (rd now : String)
    (h : pyStrip topic = "") :
    create_content rE wE topic ct ta wc tone kw rd now =
      ([], Except.error (Err.invalidInput "Topic cannot be empty")) := by
  simp [create_content, conduct_research, research_topic, agent_validate_input, h]

/-- Claim C3 witness: a whitespace-only topic is rejected with no calls. -/
theorem empty_topic_invalid_input_no_calls_witness :
    create_content demoResearchStub demoWriterStub "   " "article" "general" 500
      "professional" none "comprehensive" "2026-10-12T00:00:00" =
      ([], Except.error (Err.invalidInput "Topic cannot be empty")) :=
  empty_topic_invalid_input_no_calls demoResearchStub demoWriterStub "   " "article"
    "general" 500 "professional" none "comprehensive" "2026-10-12T00:00:00" (by decide)

/-- Claim C4: when the research completion fails, `create_content`
raises the same failure unmodified, the trace holds only the research
call (the draft step is never invoked), and no record is produced. -/
theorem research_failure_skips_draft
    (rE wE : CompletionStub) (topic ct ta : String) (wc : Nat) (tone : String)
    (kw : Option (List String)) (rd now : String) (e : Err)
    (h0 : agent_validate_input topic = true)
    (h : rE (research_task_description topic rd ct ta) = Except.error e) :
    create_content rE wE topic ct ta wc tone kw rd now =
      ([CallEvent.researchCall (research_task_description topic rd ct ta)],
       Except.error e) := by
  simp [create_content, conduct_research, research_topic, h0, h]

/-- Claim C4 witness: the failing research stub aborts the concrete run
with its own failure and a single-call trace. -/
theorem research_failure_skips_draft_witness :
    create_content demoFailingStub demoWriterStub "electric vehicles" "article" "general"
      500 "professional" none "comprehensive" "2026-10-12T00:00:00" =
      ([CallEvent.researchCall
          (research_task_description "electric vehicles" "comprehensive" "article" "general")],
       Except.error (Err.upstream "rate limit")) :=
  research_failure_skips_draft demoFailingStub demoWriterStub "electric vehicles" "article"
    "general" 500 "professional" none "comprehensive" "2026-10-12T00:00:00"
    (Err.upstream "rate limit") (by decide) rfl

/-- Claim C5 counterexample: a research result with empty key_facts,
sources, and insights still yields a non-empty requirements block of
three bare labels, because the orchestrator tests key presence, not
emptiness, and the parser always includes all keys. -/
theorem all_empty_research_block_nonempty :
    dictLookup (parse_research_result "" "t") "key_facts" = some (RValue.strList []) ∧
    dictLookup (parse_research_result "" "t") "sources" = some (RValue.strList []) ∧
    dictLookup (parse_research_result "" "t") "insights" = some (RValue.strList []) ∧
    prepare_research_requirements (parse_research_result "" "t") =
      "Key Facts: \nCredible Sources: \nKey Insights: " ∧
    prepare_research_requirements (parse_research_result "" "t") ≠ "" := by
  refine ⟨rfl, rfl, rfl, rfl, ?_⟩
  decide

/-- Claim C5 (amended): when key_facts, sources, and insights are all
empty, the requirements block is the three labeled lines with empty
comma-joins (not the empty string), and the Draft step still proceeds
without error. -/
theorem all_empty_research_block_labeled_lines
    (t raw : String) (recs : List String) (wE : CompletionStub)
    (topic ct ta : String) (wc : Nat) (tone : String) (kw : Option (List String))
    (d : String)
    (h0 : agent_validate_input topic = true)
    (hw : wE (writer_task_description topic ct ta wc tone kw
        (some "Key Facts: \nCredible Sources: \nKey Insights: ")) = Except.ok d) :
    prepare_research_requirements (mkResearchDict t raw [] [] [] recs) =
      "Key Facts: \nCredible Sources: \nKey Insights: " ∧
    (create_draft wE topic ct ta wc tone kw (mkResearchDict t raw [] [] [] recs)).2 =
      Except.ok
        { draft_content := pyStrip d
          research_incorporated := true
          word_count_actual := (pySplitWS (pyStrip d)).length
          keywords_used := pyOrEmpty kw } := by
  refine ⟨rfl, ?_⟩
  simp [create_draft, create_content_draft, h0]
  have hb : prepare_research_requirements (mkResearchDict t raw [] [] [] recs) =
      "Key Facts: \nCredible Sources: \nKey Insights: " := rfl
  rw [hb, hw]

/-- Claim C5 witness: the amended statement at concrete all-empty input. -/
theorem all_empty_research_block_labeled_lines_witness :
    prepare_research_requirements (mkResearchDict "t" "" [] [] [] []) =
      "Key Facts: \nCredible Sources: \nKey Insights: " ∧
    (create_draft demoWriterStub "electric vehicles" "article" "general" 500
        "professional" none (mkResearchDict "t" "" [] [] [] [])).2 =
      Except.ok
        { draft_content := pyStrip "one two three"
          research_incorporated := true
          word_count_actual := (pySplitWS (pyStrip "one two three")).length
          keywords_used := pyOrEmpty none } :=
  all_empty_research_block_labeled_lines "t" "" [] demoWriterStub "electric vehicles"
    "article" "general" 500 "professional" none "one two three" (by decide) rfl

/-- Claim C6: for a non-empty topic with both completions succeeding,
the call trace of `create_content` is exactly the research call followed
by the draft call, and the draft prompt is built from the parsed
research output through the requirements block — so research completes
before the draft begins. -/
theorem research_call_before_draft_call
    (rE wE : CompletionStub) (topic ct ta : String) (wc : Nat) (tone : String)
    (kw : Option (List String)) (rd now raw d : String)
    (h0 : agent_validate_input topic = true)
    (hr : rE (research_task_description topic rd ct ta) = Except.ok raw)
    (hw : wE (writer_task_description topic ct ta wc tone kw
        (some (prepare_research_requirements (parse_research_result raw topic)))) =
        Except.ok d) :
    (create_content rE wE topic ct ta wc tone kw rd now).1 =
      [CallEvent.researchCall (research_task_description topic rd ct ta),
       CallEvent.draftCall (writer_task_description topic ct ta wc tone kw
         (some (prepare_research_requirements (parse_research_result raw topic))))] := by
  simp [create_content, conduct_research, research_topic, create_draft,
    create_content_draft, h0, hr, hw]

/-- Claim C6 witness: the concrete demo run makes its two calls in
research-then-draft order. -/
theorem research_call_before_draft_call_witness :
    (create_content demoResearchStub demoWriterStub "electric vehicles" "article"
        "general" 500 "professional" (some ["EV", "battery"]) "comprehensive"
        "2026-10-12T00:00:00").1 =
      [CallEvent.researchCall
         (research_task_description "electric vehicles" "comprehensive" "article" "general"),
       CallEvent.draftCall
         (writer_task_description "electric vehicles" "article" "general" 500
           "professional" (some ["EV", "battery"])
           (some (prepare_research_requirements (parse_research_result
             "Fact: solar capacity grew\nSource: energy agency review" "electric vehicles"))))] :=
  research_call_before_draft_call demoResearchStub demoWriterStub "electric vehicles"
    "article" "general" 500 "professional" (some ["EV", "battery"]) "comprehensive"
    "2026-10-12T00:00:00" "Fact: solar capacity grew\nSource: energy agency review"
    "one two three" (by decide) rfl rfl

/-- Claim C7 counterexample: the key-facts bucket stores the stripped
copy of a matching line, not the line itself, so the bucket is not the
plain keyword-filtered line list. -/
theorem bucket_line_stripped_counterexample :
    extract_key_facts " fact A" = ["fact A"] ∧
    extract_key_facts " fact A" ≠
      (pylines " fact A").filter (fun line => lineMatches key_fact_keywords line) := by
  refine ⟨by decide, by decide⟩

/-- Claim C7 (amended): for every input text, each bucket is exactly the
whitespace-stripped copies of those lines containing at least one of the
fixed keywords of the bucket as a case-insensitive substring, in
original line order (a line may land in several buckets or in none). -/
theorem extractor_buckets_are_filtered_lines (text : String) :
    extract_key_facts text =
      ((pylines text).filter (fun l => lineMatches key_fact_keywords l)).map pyStrip ∧
    extract_sources text =
      ((pylines text).filter (fun l => lineMatches source_keywords l)).map pyStrip ∧
    extract_insights text =
      ((pylines text).filter (fun l => lineMatches insight_keywords l)).map pyStrip :=
  ⟨extractLines_eq_filter_map key_fact_keywords text,
   extractLines_eq_filter_map source_keywords text,
   extractLines_eq_filter_map insight_keywords text⟩

/-- Claim C8 counterexample: the parsed research result has no
`raw_text` key — the raw completion text is stored under
`research_findings` — so its key list differs from the claimed one. -/
theorem research_result_lacks_raw_text_key :
    "raw_text" ∉ (parse_research_result "x" "t").map Prod.fst ∧
    (parse_research_result "x" "t").map Prod.fst ≠
      ["topic", "raw_text", "key_facts", "sources", "insights", "recommendations"] := by
  refine ⟨by decide, by decide⟩

/-- Claim C8 (amended): every parsed research result is a record with
exactly the keys topic, research_findings, key_facts, sources, insights
and recommendations, in that order; the raw completion text sits under
research_findings and the last four keys hold string sequences. -/
theorem research_result_field_names (raw t : String) :
    (parse_research_result raw t).map Prod.fst =
      ["topic", "research_findings", "key_facts", "sources", "insights",
       "recommendations"] ∧
    dictLookup (parse_research_result raw t) "topic" = some (RValue.str t) ∧
    dictLookup (parse_research_result raw t) "research_findings" =
      some (RValue.str raw) ∧
    dictLookup (parse_research_result raw t) "key_facts" =
      some (RValue.strList (extract_key_facts raw)) ∧
    dictLookup (parse_research_result raw t) "sources" =
      some (RValue.strList (extract_sources raw)) ∧
    dictLookup (parse_research_result raw t) "insights" =
      some (RValue.strList (extract_insights raw)) ∧
    dictLookup (parse_research_result raw t) "recommendations" =
      some (RValue.strList (extract_recommendations raw)) :=
  ⟨rfl, rfl, rfl, rfl, rfl, rfl, rfl⟩

/-- Claim C9: a request whose shared-secret header does not match the
configured secret is rejected with the authorization error, with an
empty call trace: the orchestrator is never invoked and neither
pipeline step runs. -/
theorem bad_api_key_rejected_before_pipeline
    (rE wE : CompletionStub) (secret : String) (api_key : Option String)
    (topic ct ta : String) (wc : Nat) (tone : String) (kw : Option (List String))
    (rd now : String)
    (h : api_key ≠ some secret) :
    create_content_endpoint rE wE secret api_key topic ct ta wc tone kw rd now =
      ([], Except.error (HttpFailure.unauthorized "Invalid API Key")) := by
  simp [create_content_endpoint, get_api_key, h]

/-- Claim C9 witness: a wrong key is rejected on a concrete request. -/
theorem bad_api_key_rejected_before_pipeline_witness :
    create_content_endpoint demoResearchStub demoWriterStub "expected-secret"
      (some "wrong-secret") "electric vehicles" "article" "general" 500 "professional"
      none "comprehensive" "2026-10-12T00:00:00" =
      ([], Except.error (HttpFailure.unauthorized "Invalid API Key")) :=
  bad_api_key_rejected_before_pipeline demoResearchStub demoWriterStub "expected-secret"
    (some "wrong-secret") "electric vehicles" "article" "general" 500 "professional"
    none "comprehensive" "2026-10-12T00:00:00" (by decide)

/-- Claim C10: every successful draft step reports
research_incorporated = true regardless of the research content, and
keywords_used is the requested keyword list when non-empty and the
empty list otherwise (absent keywords included). -/
theorem draft_result_metadata
    (wE : CompletionStub) (topic ct ta : String) (wc : Nat) (tone : String)
    (kw : Option (List String)) (research_data : PyDict) (dr : DraftResult)
    (h : (create_draft wE topic ct ta wc tone kw research_data).2 = Except.ok dr) :
    dr.research_incorporated = true ∧ dr.keywords_used = kw.getD [] := by
  obtain ⟨h1, -, h3⟩ :=
    create_draft_ok_shape wE topic ct ta wc tone kw research_data dr h
  exact ⟨h1, h3.trans (pyOrEmpty_eq_getD kw)⟩

/-- Claim C10 witness: the concrete draft run reports incorporated
research and echoes the requested keywords. -/
theorem draft_result_metadata_witness :
    demoDraftResult.research_incorporated = true ∧
    demoDraftResult.keywords_used = (some ["EV", "battery"] : Option (List String)).getD [] :=
  draft_result_metadata demoWriterStub "electric vehicles" "article" "general" 500
    "professional" (some ["EV", "battery"])
    (parse_research_result "Fact: solar capacity grew" "electric vehicles")
    demoDraftResult rfl
